import Mathlib

/-!
Verification of the wizeprompt conversation data-access module and the
generation-parameters modal, shallowly embedded from the TypeScript source.

The database-backed functions are embedded as pure state-passing functions
over an explicit `DB` value; the Prisma client calls they make are embedded
as list operations on that state.  JSON blobs (a user's `globalParameters`,
a conversation's `parameters`) are embedded as a `Json` value type; JS
truthiness is made explicit where the source relies on it.
-/

namespace WizePrompt

/-- A JSON value, as stored in the database's JSON columns and produced by
`JSON.parse`.  Numbers are rationals (JS numbers; no claim involves NaN or
infinities). -/
inductive Json where
  | null
  | bool (b : Bool)
  | num (q : ℚ)
  | str (s : String)
  | arr (elems : List Json)
  | obj (fields : List (String × Json))

/-- JS truthiness of a JSON value: `null`, `false`, `0` and `""` are falsy,
every array and object (including the empty object) is truthy. -/
def jsTruthy : Json → Bool
  | Json.null => false
  | Json.bool b => b
  | Json.num q => q != 0
  | Json.str s => s != ""
  | Json.arr _ => true
  | Json.obj _ => true

/-- Property access `j[k]` on a parsed JSON value: defined on objects,
`undefined` (`none`) on everything else. -/
def Json.lookup : Json → String → Option Json
  | Json.obj fields, k => (fields.find? (fun p => p.1 == k)).map (fun p => p.2)
  | _, _ => none

/-- JS `String.prototype.trim`: strip leading and trailing whitespace. -/
def jsTrim (s : String) : String :=
  String.mk (((s.data.dropWhile Char.isWhitespace).reverse.dropWhile Char.isWhitespace).reverse)

/-- A `User` row.  `globalParameters` is the nullable JSON column holding
per-model default generation settings; it is embedded here as the parsed
JSON value (`createConversation` parses the stored string with
`JSON.parse`, and the claims concern users whose stored JSON is valid). -/
structure User where
  id : Int
  globalParameters : Option Json

/-- A `Model` row (a named generation backend). -/
structure Model where
  id : Int
  name : String
  deriving DecidableEq

/-- A `Tag` row. -/
structure Tag where
  id : Int
  name : String
  deriving DecidableEq

/-- A `Message` row; it belongs to the conversation `idConversation`. -/
structure Message where
  id : Int
  idConversation : Int
  content : String
  deriving DecidableEq

/-- A `Conversation` row together with its tag associations (the
many-to-many relation is carried on the row for this embedding). -/
structure Conversation where
  id : Int
  idUser : Int
  idModel : Int
  title : String
  parameters : Json
  active : Bool
  tags : List Tag

/-- The database state the Prisma client operates on.  `nextConversationId`
embeds the autoincrement id sequence of the `Conversation` table. -/
structure DB where
  users : List User
  models : List Model
  tags : List Tag
  conversations : List Conversation
  messages : List Message
  nextConversationId : Int

/-- The uniform response envelope `{status, data?, message?}` every
data-access function returns. -/
structure PrismaResponse (α : Type) where
  status : Nat
  data : Option α := none
  message : Option String := none

/-- `prisma.user.findUnique({where: {id}})`. -/
def findUserById (db : DB) (i : Int) : Option User :=
  db.users.find? (fun u => u.id == i)

/-- `prisma.model.findUnique({where: {id}})`. -/
def findModelById (db : DB) (i : Int) : Option Model :=
  db.models.find? (fun m => m.id == i)

/-- `prisma.conversation.findUnique({where: {id}})`. -/
def findConversationById (db : DB) (i : Int) : Option Conversation :=
  db.conversations.find? (fun c => c.id == i)

/-- Modelled from the spec: the Prisma client (`./prisma`) is not under
`src/`.  `prisma.conversation.update({where: {id}})` applied to field
changes `f`; per spec §4.1 a not-found update surfaces as a falsy (here
`none`) result rather than throwing, and on a present row it applies the
changes and returns the updated row. -/
def prismaConversationUpdate (db : DB) (i : Int) (f : Conversation → Conversation) :
    Option Conversation × DB :=
  match db.conversations.find? (fun c => c.id == i) with
  | none => (none, db)
  | some c =>
      (some (f c),
       { db with conversations := db.conversations.map (fun r => if r.id == i then f r else r) })

/-- Modelled from the spec: `prisma.conversation.delete({where: {id}})`;
per spec §4.1 a not-found delete surfaces as a falsy (`none`) result. -/
def prismaConversationDelete (db : DB) (i : Int) : Option Conversation × DB :=
  match db.conversations.find? (fun c => c.id == i) with
  | none => (none, db)
  | some c => (some c, { db with conversations := db.conversations.filter (fun r => r.id != i) })

/-- `prisma.message.deleteMany({where: {idConversation}})`. -/
def prismaMessageDeleteMany (db : DB) (i : Int) : DB :=
  { db with messages := db.messages.filter (fun m => m.idConversation != i) }

/-- Modelled from the spec: the Prisma client (`./prisma`) is not under
`src/`.  `prisma.conversation.updateMany({where: {idUser}, data: {active:
false}})` sets `active := false` on every row of the user.  The batch
payload count is modelled as the number of matched rows, but the spec
(§4.1 and its Open Questions) leaves matched-versus-changed count
semantics ambiguous and not to be guessed at; no theorem in this file
relies on the count's value. -/
def prismaConversationUpdateMany (db : DB) (idUser : Int) : Nat × DB :=
  ((db.conversations.filter (fun c => c.idUser == idUser)).length,
   { db with
      conversations :=
        db.conversations.map (fun c => if c.idUser == idUser then { c with active := false } else c) })

/-- `prisma.conversation.create` with the given column values; the new row
takes the next id from the autoincrement sequence. -/
def prismaConversationCreate (db : DB) (idUser idModel : Int) (title : String)
    (parameters : Json) (active : Bool) (tags : List Tag) : Conversation × DB :=
  let c : Conversation :=
    { id := db.nextConversationId, idUser := idUser, idModel := idModel, title := title,
      parameters := parameters, active := active, tags := tags }
  (c, { db with conversations := db.conversations ++ [c],
                nextConversationId := db.nextConversationId + 1 })

/-- `getAllConversationsByUserId(idUser)`: 400 on falsy/negative id, 404 on
missing user or empty result, else the user's `active` conversations. -/
def getAllConversationsByUserId (db : DB) (idUser : Int) :
    PrismaResponse (List Conversation) :=
  if idUser = 0 ∨ idUser < 0 then
    { status := 400, message := some "Invalid user ID" }
  else
    match findUserById db idUser with
    | none => { status := 404, message := some "User not found" }
    | some _ =>
        let conversations := db.conversations.filter (fun c => c.idUser == idUser && c.active)
        if conversations.length = 0 then
          { status := 404, message := some "No conversations found for this user" }
        else
          { status := 200, data := some conversations }

/-- `getConversationById(id)`: 400 on falsy/non-positive id, 404 when the
row is absent; no `active` filter is applied. -/
def getConversationById (db : DB) (id : Int) : PrismaResponse Conversation :=
  if id = 0 ∨ id ≤ 0 then
    { status := 400, message := some "Invalid conversation ID" }
  else
    match findConversationById db id with
    | none => { status := 404, message := some "Conversation not found" }
    | some conversation => { status := 200, data := some conversation }

/-- The `ConversationDataInput` interface of `createConversation`.  `tags`
holds tag ids to connect; `parameters` and `active` are caller-supplied
fields that the function overrides. -/
structure ConversationDataInput where
  idUser : Int
  idModel : Int
  title : String
  tags : Option (List Int)
  parameters : Option Json
  active : Bool
  useGlobalParameters : Bool

/-- `user.globalParameters ? JSON.parse(String(user.globalParameters)) : {}`:
the user's stored global-parameters JSON, or the empty object when the
column is null. -/
def parsedGlobalParameters (user : User) : Json :=
  match user.globalParameters with
  | some gp => gp
  | none => Json.obj []

/-- `createConversation(input)`: validates truthiness of `idUser`,
`idModel`, `title`; checks user and model existence; resolves the initial
`parameters` from the user's `globalParameters` keyed by the model's name
when `useGlobalParameters` is set, else stores the empty object; forces
`active` to `true`. -/
def createConversation (db : DB) (input : ConversationDataInput) :
    PrismaResponse Conversation × DB :=
  if input.idUser = 0 ∨ input.idModel = 0 ∨ input.title = "" then
    ({ status := 400, message := some "Invalid input for creating conversation" }, db)
  else
    match findUserById db input.idUser with
    | none => ({ status := 404, message := some "User not found" }, db)
    | some user =>
        match findModelById db input.idModel with
        | none => ({ status := 404, message := some "Model not found" }, db)
        | some model =>
            let userGlobalParameters : Json := parsedGlobalParameters user
            let modelParameters : Option Json := userGlobalParameters.lookup model.name
            let parameters : Option Json :=
              if input.useGlobalParameters then modelParameters else none
            let storedParameters : Json :=
              match parameters with
              | some p => if jsTruthy p then p else Json.obj []
              | none => Json.obj []
            let connectedTags : List Tag :=
              match input.tags with
              | some ids => ids.filterMap (fun tid => db.tags.find? (fun t => t.id == tid))
              | none => []
            let created := prismaConversationCreate db input.idUser input.idModel input.title
              storedParameters true connectedTags
            ({ status := 201, data := some created.1 }, created.2)

/-- The `UpdatedInfo` interface of `updateConversationById`. -/
structure UpdatedInfo where
  tags : Option (List Tag)
  title : Option String

/-- The blank-title rejection test of `updateConversationById`:
`updatedInfo.title && updatedInfo.title.trim() === ''` — a truthy
(non-empty) title that trims to the empty string. -/
def isBlankProvidedTitle : Option String → Bool
  | some t => decide (t ≠ "") && decide (jsTrim t = "")
  | none => false

/-- `updateConversationById(id, updatedInfo, includeRelatedEntities)`:
validates the id and a provided title; a provided tag list is written with
`{set: ...}` semantics, a truthy title replaces the old one
(`updatedInfo.title || undefined`).  `includeRelatedEntities` only selects
which relations are included in the returned object, which this embedding
always carries. -/
def updateConversationById (db : DB) (id : Int) (updatedInfo : UpdatedInfo)
    (_includeRelatedEntities : Bool) : PrismaResponse Conversation × DB :=
  if id = 0 ∨ id ≤ 0 then
    ({ status := 400, message := some "Invalid conversation ID" }, db)
  else if isBlankProvidedTitle updatedInfo.title then
    ({ status := 400, message := some "Title cannot be empty" }, db)
  else
    match prismaConversationUpdate db id (fun c =>
      { c with
        tags := match updatedInfo.tags with
          | some ts => ts
          | none => c.tags,
        title := match updatedInfo.title with
          | some t => if t = "" then c.title else t
          | none => c.title }) with
    | (none, db1) => ({ status := 404, message := some "Conversation not found" }, db1)
    | (some conversation, db1) => ({ status := 200, data := some conversation }, db1)

/-- The `ModelParameters` payload of `updateConversationParameters`
(context strings and a temperature, as edited by the parameters modal). -/
structure ModelParameters where
  userContext : String
  responseContext : String
  temperature : ℚ
  deriving DecidableEq

/-- Modelled from the spec: `areValidModelParameters` lives in
`prisma-input-validation`, which is not under `src/`; per spec §6 it is a
pure predicate that holds iff all required fields are present and within
allowed ranges.  The fields are always present here, and the range is
embedded as the UI slider's temperature range [0, 1]. -/
def areValidModelParameters (p : ModelParameters) : Bool :=
  decide (0 ≤ p.temperature) && decide (p.temperature ≤ 1)

/-- The stored JSON form of a `ModelParameters` payload. -/
def modelParametersToJson (p : ModelParameters) : Json :=
  Json.obj
    [("userContext", Json.str p.userContext),
     ("responseContext", Json.str p.responseContext),
     ("temperature", Json.num p.temperature)]

/-- `updateConversationParameters(id, parameters)`: 400 when the payload
fails validation; otherwise overwrites `parameters` wholesale and returns
200 with whatever the update produced (the source performs no id
validation and no null check on the update result). -/
def updateConversationParameters (db : DB) (id : Int) (parameters : ModelParameters) :
    PrismaResponse Conversation × DB :=
  if !areValidModelParameters parameters then
    ({ status := 400, message := some "Invalid model parameters" }, db)
  else
    match prismaConversationUpdate db id
      (fun c => { c with parameters := modelParametersToJson parameters }) with
    | (conversation, db1) => ({ status := 200, data := conversation }, db1)

/-- `deactivateConversationById(id)`: validates the id, then sets
`active = false` on the matching row only. -/
def deactivateConversationById (db : DB) (id : Int) : PrismaResponse Unit × DB :=
  if id = 0 ∨ id ≤ 0 then
    ({ status := 400, message := some "Invalid conversation ID" }, db)
  else
    match prismaConversationUpdate db id (fun c => { c with active := false }) with
    | (none, db1) => ({ status := 404, message := some "Conversation not found" }, db1)
    | (some _, db1) => ({ status := 200, message := some "Conversation marked as inactive" }, db1)

/-- `deactivateAllConversationsByUserId(idUser)`: checks the user exists
(no id validation), bulk-deactivates every conversation of that user, and
returns 404 when the batch count is zero, else 200 with the count. -/
def deactivateAllConversationsByUserId (db : DB) (idUser : Int) :
    PrismaResponse Nat × DB :=
  match findUserById db idUser with
  | none => ({ status := 404, message := some "User ID does not exist" }, db)
  | some _ =>
      let updated := prismaConversationUpdateMany db idUser
      if updated.1 = 0 then
        ({ status := 404, message := some "No conversations found for this user" }, updated.2)
      else
        ({ status := 200, message := some "Conversations marked as inactive",
           data := some updated.1 }, updated.2)

/-- `deleteConversationById(id)`: validates the id, deletes all messages of
the conversation first, then deletes the conversation row itself. -/
def deleteConversationById (db : DB) (id : Int) : PrismaResponse Unit × DB :=
  if id = 0 ∨ id ≤ 0 then
    ({ status := 400, message := some "Invalid conversation ID" }, db)
  else
    let db1 := prismaMessageDeleteMany db id
    match prismaConversationDelete db1 id with
    | (none, db2) => ({ status := 404, message := some "Conversation not found" }, db2)
    | (some _, db2) =>
        ({ status := 200,
           message := some "Conversation and associated messages successfully deleted" }, db2)

/-- The resolved parameter set of `ModalParametersGPT`. -/
structure Parameters where
  userContext : String
  responseContext : String
  temperature : ℚ
  deriving DecidableEq

/-- The typed shape of `prismaUser.globalParameters` as the modal reads it
(optional fields accessed through optional chaining). -/
structure ModalGlobalParameters where
  userContext : Option String
  responseContext : Option String
  temperature : Option ℚ
  deriving DecidableEq

/-- The `prismaUser` read from `PrismaUserContext`. -/
structure PrismaUser where
  globalParameters : Option ModalGlobalParameters
  deriving DecidableEq

/-- JS `a || b` on an optionally-present string: the string when present
and truthy (non-empty), else the fallback. -/
def jsOrString (o : Option String) (fallback : String) : String :=
  match o with
  | none => fallback
  | some s => if s = "" then fallback else s

/-- JS `a || b` on an optionally-present number: the number when present
and truthy (nonzero), else the fallback. -/
def jsOrRat (o : Option ℚ) (fallback : ℚ) : ℚ :=
  match o with
  | none => fallback
  | some q => if q = 0 then fallback else q

/-- The parameter-resolution effect of `ModalParametersGPT`: the value of
`globalFormParams` (what `handleSave` passes to `saveParameters`) as a
function of the "use global context" toggle, the `prismaUser` from
context, the `temperature` prop, and the locally edited fields. -/
def resolveModalParameters (isSelected : Bool) (prismaUser : Option PrismaUser)
    (temperature : ℚ) (updatedUserContext updatedResponseContext : String)
    (updatedTemperature : ℚ) : Parameters :=
  if isSelected then
    let globalUserContext :=
      jsOrString ((prismaUser.bind (fun u => u.globalParameters)).bind
        (fun g => g.userContext)) ""
    let globalResponseContext :=
      jsOrString ((prismaUser.bind (fun u => u.globalParameters)).bind
        (fun g => g.responseContext)) ""
    let globalTemperature :=
      jsOrRat ((prismaUser.bind (fun u => u.globalParameters)).bind
        (fun g => g.temperature)) temperature
    { userContext := globalUserContext ++ " " ++ updatedUserContext,
      responseContext := globalResponseContext ++ " " ++ updatedResponseContext,
      temperature := globalTemperature }
  else
    { userContext := updatedUserContext,
      responseContext := updatedResponseContext,
      temperature := updatedTemperature }

/-! ### Sample data used by the witnesses -/

def gpt4Defaults : Json := Json.obj [("temperature", Json.num (1/2))]

def userOne : User :=
  { id := 1, globalParameters := some (Json.obj [("gpt-4", gpt4Defaults)]) }

def modelTwo : Model := { id := 2, name := "gpt-4" }

def tagA : Tag := { id := 10, name := "work" }

def tagB : Tag := { id := 11, name := "play" }

def convOne : Conversation :=
  { id := 1, idUser := 1, idModel := 2, title := "T", parameters := Json.obj [],
    active := true, tags := [tagA] }

def msgOne : Message := { id := 1, idConversation := 1, content := "hi" }

def sampleDb : DB :=
  { users := [userOne], models := [modelTwo], tags := [tagA, tagB],
    conversations := [convOne], messages := [msgOne], nextConversationId := 5 }

def inputGlobal : ConversationDataInput :=
  { idUser := 1, idModel := 2, title := "New", tags := none, parameters := none,
    active := false, useGlobalParameters := true }

/-! ### C1: parameter resolution in `createConversation` -/

/-- C1: for a valid `createConversation` input against an existing user and
model, the created conversation's `parameters` equal the sub-object of the
user's `globalParameters` keyed by the model's name when
`useGlobalParameters` is true and that key holds a JSON object, and equal
the empty object when `useGlobalParameters` is false or the key is
absent. -/
theorem createConversation_parameter_resolution
    (db : DB) (input : ConversationDataInput) (user : User) (model : Model)
    (hvalid : ¬(input.idUser = 0 ∨ input.idModel = 0 ∨ input.title = ""))
    (huser : findUserById db input.idUser = some user)
    (hmodel : findModelById db input.idModel = some model) :
    (createConversation db input).1.status = 201 ∧
    ∀ c, (createConversation db input).1.data = some c →
      ((∀ fs, input.useGlobalParameters = true →
          (parsedGlobalParameters user).lookup model.name = some (Json.obj fs) →
          c.parameters = Json.obj fs) ∧
       ((input.useGlobalParameters = false ∨
          (parsedGlobalParameters user).lookup model.name = none) →
          c.parameters = Json.obj [])) := by
  unfold createConversation
  rw [if_neg hvalid, huser, hmodel]
  dsimp only [prismaConversationCreate]
  refine ⟨rfl, ?_⟩
  intro c hc
  rw [Option.some.injEq] at hc
  subst hc
  constructor
  · intro fs htrue hlook
    simp [htrue, hlook, jsTruthy]
  · intro h
    rcases h with hfalse | hnone
    · simp [hfalse]
    · cases hb : input.useGlobalParameters <;> simp [hb, hnone]

/-- Witness for C1 at a concrete database and input. -/
theorem createConversation_parameter_resolution_witness :
    (createConversation sampleDb inputGlobal).1.status = 201 ∧
    ∀ c, (createConversation sampleDb inputGlobal).1.data = some c →
      ((∀ fs, inputGlobal.useGlobalParameters = true →
          (parsedGlobalParameters userOne).lookup modelTwo.name = some (Json.obj fs) →
          c.parameters = Json.obj fs) ∧
       ((inputGlobal.useGlobalParameters = false ∨
          (parsedGlobalParameters userOne).lookup modelTwo.name = none) →
          c.parameters = Json.obj [])) :=
  createConversation_parameter_resolution sampleDb inputGlobal userOne modelTwo
    (by decide) rfl rfl

/-! ### C8: `createConversation` forces `active = true` -/

/-- C8: every conversation returned by a successful `createConversation`
call has `active = true` regardless of the caller-supplied `active` value,
and that row is stored in the database. -/
theorem createConversation_forces_active
    (db : DB) (input : ConversationDataInput) (c : Conversation)
    (hc : (createConversation db input).1.data = some c) :
    c.active = true ∧ c ∈ (createConversation db input).2.conversations := by
  unfold createConversation at hc ⊢
  by_cases hvalid : input.idUser = 0 ∨ input.idModel = 0 ∨ input.title = ""
  · rw [if_pos hvalid] at hc
    simp at hc
  · rw [if_neg hvalid] at hc ⊢
    cases huser : findUserById db input.idUser with
    | none => rw [huser] at hc; simp at hc
    | some user =>
      rw [huser] at hc
      cases hmodel : findModelById db input.idModel with
      | none => rw [hmodel] at hc; simp at hc
      | some model =>
        rw [hmodel] at hc
        dsimp only [prismaConversationCreate] at hc ⊢
        rw [Option.some.injEq] at hc
        subst hc
        exact ⟨rfl, by simp⟩

/-- Witness for C8: the caller supplies `active := false`, yet the created
row is active. -/
theorem createConversation_forces_active_witness :
    ({ id := 5, idUser := 1, idModel := 2, title := "New",
       parameters := gpt4Defaults, active := true,
       tags := [] } : Conversation).active = true ∧
    ({ id := 5, idUser := 1, idModel := 2, title := "New",
       parameters := gpt4Defaults, active := true,
       tags := [] } : Conversation) ∈
      (createConversation sampleDb inputGlobal).2.conversations :=
  createConversation_forces_active sampleDb inputGlobal _ rfl

/-! ### Helper lemmas about the embedded Prisma row operations -/

/-- Updating the matching row with an id-preserving change commutes with
looking the row up again afterwards. -/
theorem find?_update_map (l : List Conversation) (i : Int)
    (f : Conversation → Conversation) (hf : ∀ r, (f r).id = r.id)
    (c : Conversation) (hc : l.find? (fun r => r.id == i) = some c) :
    (l.map (fun r => if r.id == i then f r else r)).find? (fun r => r.id == i) =
      some (f c) := by
  induction l with
  | nil => simp at hc
  | cons a t ih =>
    rw [List.find?_cons] at hc
    cases ha : a.id == i with
    | true =>
      rw [ha] at hc
      dsimp only at hc
      rw [Option.some.injEq] at hc
      subst hc
      rw [List.map_cons, List.find?_cons, if_pos ha, hf, ha]
    | false =>
      rw [ha] at hc
      dsimp only at hc
      have ha1 : ¬((a.id == i) = true) := by simp [ha]
      rw [List.map_cons, List.find?_cons, if_neg ha1, ha]
      dsimp only
      exact ih hc

/-- After bulk-applying `active := false` to the rows matching id `i`,
every row still carrying id `i` is inactive. -/
theorem deactivated_row_inactive (l : List Conversation) (i : Int)
    (r : Conversation)
    (hr : r ∈ l.map (fun x => if x.id == i then { x with active := false } else x))
    (hid : r.id = i) : r.active = false := by
  rcases List.mem_map.mp hr with ⟨r0, _, heq⟩
  by_cases h0 : (r0.id == i) = true
  · rw [if_pos h0] at heq
    rw [← heq]
  · rw [if_neg h0] at heq
    subst heq
    exact absurd (by simp [hid]) h0

/-! ### C4: `deactivateConversationById` is a frame-preserving soft delete -/

/-- C4: deactivating an existing conversation returns 200, leaves every
other field of the row (and all messages) unchanged, keeps the row
retrievable through `getConversationById`, and removes it from
`getAllConversationsByUserId` results. -/
theorem deactivateConversationById_frame
    (db : DB) (i : Int) (c : Conversation)
    (hid : 0 < i)
    (hc : findConversationById db i = some c) :
    (deactivateConversationById db i).1.status = 200 ∧
    getConversationById (deactivateConversationById db i).2 i =
      { status := 200, data := some { c with active := false }, message := none } ∧
    (deactivateConversationById db i).2.messages = db.messages ∧
    (∀ idUser l,
      (getAllConversationsByUserId (deactivateConversationById db i).2 idUser).data = some l →
      ∀ r ∈ l, r.id ≠ i) := by
  have hid400 : ¬(i = 0 ∨ i ≤ 0) := by omega
  unfold findConversationById at hc
  unfold deactivateConversationById prismaConversationUpdate
  rw [if_neg hid400, hc]
  dsimp only
  refine ⟨rfl, ?_, rfl, ?_⟩
  · unfold getConversationById findConversationById
    rw [if_neg hid400]
    dsimp only
    rw [find?_update_map db.conversations i (fun r => { r with active := false })
      (fun r => rfl) c hc]
  · intro idUser l hl r hr
    unfold getAllConversationsByUserId at hl
    by_cases h400 : idUser = 0 ∨ idUser < 0
    · rw [if_pos h400] at hl
      simp at hl
    · rw [if_neg h400] at hl
      cases hu : findUserById { db with
          conversations :=
            db.conversations.map (fun r => if r.id == i then { r with active := false } else r) }
          idUser with
      | none => rw [hu] at hl; simp at hl
      | some u =>
        rw [hu] at hl
        dsimp only at hl
        split at hl
        · simp at hl
        · rw [Option.some.injEq] at hl
          subst hl
          rcases List.mem_filter.mp hr with ⟨hmem, hp⟩
          simp only [Bool.and_eq_true] at hp
          rcases hp with ⟨-, hactive⟩
          intro hri
          rw [deactivated_row_inactive db.conversations i r hmem hri] at hactive
          cases hactive

/-- Witness for C4 at a concrete database holding one active
conversation. -/
theorem deactivateConversationById_frame_witness :
    (deactivateConversationById sampleDb 1).1.status = 200 ∧
    getConversationById (deactivateConversationById sampleDb 1).2 1 =
      { status := 200, data := some { convOne with active := false }, message := none } ∧
    (deactivateConversationById sampleDb 1).2.messages = sampleDb.messages ∧
    (∀ idUser l,
      (getAllConversationsByUserId (deactivateConversationById sampleDb 1).2 idUser).data = some l →
      ∀ r ∈ l, r.id ≠ 1) :=
  deactivateConversationById_frame sampleDb 1 convOne (by decide) rfl

/-! ### C6: `updateConversationById` replaces the tag associations -/

/-- C6: when a tag list is supplied, updating an existing conversation
returns 200 and both the returned row and the stored row carry exactly the
supplied tags. -/
theorem updateConversationById_replaces_tags
    (db : DB) (i : Int) (updatedInfo : UpdatedInfo) (b : Bool)
    (c0 : Conversation) (ts : List Tag)
    (hid : 0 < i)
    (htags : updatedInfo.tags = some ts)
    (htitle : isBlankProvidedTitle updatedInfo.title = false)
    (hc : findConversationById db i = some c0) :
    (updateConversationById db i updatedInfo b).1.status = 200 ∧
    (∀ c, (updateConversationById db i updatedInfo b).1.data = some c → c.tags = ts) ∧
    ((updateConversationById db i updatedInfo b).2.conversations.find?
        (fun r => r.id == i)).map Conversation.tags = some ts := by
  have hid400 : ¬(i = 0 ∨ i ≤ 0) := by omega
  unfold findConversationById at hc
  unfold updateConversationById prismaConversationUpdate
  rw [if_neg hid400,
    if_neg (show ¬(isBlankProvidedTitle updatedInfo.title = true) by simp [htitle])]
  rw [hc]
  dsimp only
  refine ⟨rfl, ?_, ?_⟩
  · intro c hcdata
    rw [Option.some.injEq] at hcdata
    subst hcdata
    simp [htags]
  · rw [find?_update_map db.conversations i
      (fun c1 => { c1 with
        tags := match updatedInfo.tags with
          | some ts1 => ts1
          | none => c1.tags,
        title := match updatedInfo.title with
          | some t => if t = "" then c1.title else t
          | none => c1.title })
      (fun r => rfl) c0 hc]
    simp [htags]

def updatedInfoTags : UpdatedInfo := { tags := some [tagB], title := none }

/-- Witness for C6: replacing `convOne`'s tag list `[tagA]` with
`[tagB]`. -/
theorem updateConversationById_replaces_tags_witness :
    (updateConversationById sampleDb 1 updatedInfoTags true).1.status = 200 ∧
    (∀ c, (updateConversationById sampleDb 1 updatedInfoTags true).1.data = some c →
      c.tags = [tagB]) ∧
    ((updateConversationById sampleDb 1 updatedInfoTags true).2.conversations.find?
        (fun r => r.id == 1)).map Conversation.tags = some [tagB] :=
  updateConversationById_replaces_tags sampleDb 1 updatedInfoTags true convOne [tagB]
    (by decide) rfl rfl rfl

/-! ### C7: blank (whitespace-only) titles are rejected without a write -/

/-- C7: an update whose `title` is a non-empty string of whitespace returns
400 and leaves the database untouched. -/
theorem updateConversationById_blank_title
    (db : DB) (i : Int) (updatedInfo : UpdatedInfo) (b : Bool) (t : String)
    (htitle : updatedInfo.title = some t)
    (ht1 : t ≠ "") (ht2 : jsTrim t = "") :
    (updateConversationById db i updatedInfo b).1.status = 400 ∧
    (updateConversationById db i updatedInfo b).2 = db := by
  unfold updateConversationById
  by_cases hid : i = 0 ∨ i ≤ 0
  · rw [if_pos hid]
    exact ⟨rfl, rfl⟩
  · rw [if_neg hid]
    have hb : isBlankProvidedTitle updatedInfo.title = true := by
      rw [htitle]
      unfold isBlankProvidedTitle
      simp [ht1, ht2]
    rw [hb]
    exact ⟨rfl, rfl⟩

def updatedInfoBlank : UpdatedInfo := { tags := none, title := some "  " }

/-- Witness for C7 with the title `"  "`. -/
theorem updateConversationById_blank_title_witness :
    (updateConversationById sampleDb 1 updatedInfoBlank true).1.status = 400 ∧
    (updateConversationById sampleDb 1 updatedInfoBlank true).2 = sampleDb :=
  updateConversationById_blank_title sampleDb 1 updatedInfoBlank true "  " rfl
    (by decide) (by decide)

/-! ### C5: `deleteConversationById` removes messages and the row -/

/-- C5: deleting an existing conversation returns 200; all of its messages
are gone from the final state (the definition deletes them first, as the
source does), and `getConversationById` subsequently answers 404. -/
theorem deleteConversationById_removes_messages_and_row
    (db : DB) (i : Int) (c : Conversation)
    (hid : 0 < i)
    (hc : findConversationById db i = some c) :
    (deleteConversationById db i).1.status = 200 ∧
    (deleteConversationById db i).2.messages =
      db.messages.filter (fun m => m.idConversation != i) ∧
    (∀ m ∈ (deleteConversationById db i).2.messages, m.idConversation ≠ i) ∧
    (getConversationById (deleteConversationById db i).2 i).status = 404 := by
  have hid400 : ¬(i = 0 ∨ i ≤ 0) := by omega
  unfold findConversationById at hc
  unfold deleteConversationById prismaMessageDeleteMany prismaConversationDelete
  rw [if_neg hid400]
  dsimp only
  rw [hc]
  dsimp only
  refine ⟨rfl, rfl, ?_, ?_⟩
  · intro m hm
    have hm2 := (List.mem_filter.mp hm).2
    simpa using hm2
  · unfold getConversationById findConversationById
    rw [if_neg hid400]
    dsimp only
    have hnone : (db.conversations.filter (fun r => r.id != i)).find?
        (fun c => c.id == i) = none := by
      rw [List.find?_eq_none]
      intro x hx
      have hx2 := (List.mem_filter.mp hx).2
      simp at hx2 ⊢
      exact hx2
    rw [hnone]

/-- Witness for C5 at a concrete database where conversation 1 owns one
message. -/
theorem deleteConversationById_removes_messages_and_row_witness :
    (deleteConversationById sampleDb 1).1.status = 200 ∧
    (deleteConversationById sampleDb 1).2.messages =
      sampleDb.messages.filter (fun m => m.idConversation != 1) ∧
    (∀ m ∈ (deleteConversationById sampleDb 1).2.messages, m.idConversation ≠ 1) ∧
    (getConversationById (deleteConversationById sampleDb 1).2 1).status = 404 :=
  deleteConversationById_removes_messages_and_row sampleDb 1 convOne (by decide) rfl

/-! ### C2: update, deactivate and delete on a missing row answer 404 -/

/-- C2: with a valid id whose conversation row is absent (and, for the
delete path, a message table satisfying the referential-integrity
invariant), `updateConversationById`, `deactivateConversationById` and
`deleteConversationById` all return 404 and leave the database
unchanged. -/
theorem missing_conversation_returns_404
    (db : DB) (i : Int) (updatedInfo : UpdatedInfo) (b : Bool)
    (hid : 0 < i)
    (habsent : findConversationById db i = none)
    (htitle : isBlankProvidedTitle updatedInfo.title = false)
    (hfk : ∀ m ∈ db.messages, ∃ c ∈ db.conversations, c.id = m.idConversation) :
    ((updateConversationById db i updatedInfo b).1.status = 404 ∧
      (updateConversationById db i updatedInfo b).2 = db) ∧
    ((deactivateConversationById db i).1.status = 404 ∧
      (deactivateConversationById db i).2 = db) ∧
    ((deleteConversationById db i).1.status = 404 ∧
      (deleteConversationById db i).2 = db) := by
  have hid400 : ¬(i = 0 ∨ i ≤ 0) := by omega
  unfold findConversationById at habsent
  refine ⟨?_, ?_, ?_⟩
  · unfold updateConversationById prismaConversationUpdate
    rw [if_neg hid400,
      if_neg (show ¬(isBlankProvidedTitle updatedInfo.title = true) by simp [htitle]),
      habsent]
    exact ⟨rfl, rfl⟩
  · unfold deactivateConversationById prismaConversationUpdate
    rw [if_neg hid400, habsent]
    exact ⟨rfl, rfl⟩
  · unfold deleteConversationById prismaMessageDeleteMany prismaConversationDelete
    rw [if_neg hid400]
    dsimp only
    have hmsg : db.messages.filter (fun m => m.idConversation != i) = db.messages := by
      rw [List.filter_eq_self]
      intro m hm
      rcases hfk m hm with ⟨c, hcmem, hcid⟩
      have hci : ¬(c.id == i) = true := by
        rw [List.find?_eq_none] at habsent
        exact habsent c hcmem
      simp at hci ⊢
      rw [← hcid]
      exact hci
    rw [habsent, hmsg]
    exact ⟨rfl, rfl⟩

/-- Witness for C2 at id 5, absent from the sample database. -/
theorem missing_conversation_returns_404_witness :
    ((updateConversationById sampleDb 5 { tags := none, title := none } true).1.status = 404 ∧
      (updateConversationById sampleDb 5 { tags := none, title := none } true).2 = sampleDb) ∧
    ((deactivateConversationById sampleDb 5).1.status = 404 ∧
      (deactivateConversationById sampleDb 5).2 = sampleDb) ∧
    ((deleteConversationById sampleDb 5).1.status = 404 ∧
      (deleteConversationById sampleDb 5).2 = sampleDb) :=
  missing_conversation_returns_404 sampleDb 5 { tags := none, title := none } true
    (by decide) rfl rfl (by decide)

/-! ### C3: which functions actually validate their id argument -/

def dbEmpty : DB :=
  { users := [], models := [], tags := [], conversations := [], messages := [],
    nextConversationId := 1 }

/-- C3 counterexample: `deactivateAllConversationsByUserId` called with the
invalid id 0 returns 404 (user lookup fails), not 400, and
`updateConversationParameters` with id 0 and a valid payload returns 200,
not 400 — so not every id-taking data-access function answers 400 on an
invalid id. -/
theorem id_validation_counterexample :
    (deactivateAllConversationsByUserId dbEmpty 0).1.status = 404 ∧
    (deactivateAllConversationsByUserId dbEmpty 0).1.status ≠ 400 ∧
    (updateConversationParameters dbEmpty 0
        { userContext := "", responseContext := "", temperature := 1 }).1.status = 200 ∧
    (updateConversationParameters dbEmpty 0
        { userContext := "", responseContext := "", temperature := 1 }).1.status ≠ 400 :=
  ⟨rfl, by decide, by decide, by decide⟩

/-- C3 amended: the five functions with an explicit id guard
(`getAllConversationsByUserId`, `getConversationById`,
`updateConversationById`, `deactivateConversationById`,
`deleteConversationById`) return 400 on every falsy/zero/negative id;
`updateConversationParameters` validates only its payload (status 200 for
a valid payload whatever the id), and `deactivateAllConversationsByUserId`
performs no id validation (a nonexistent user yields 404). -/
theorem id_validation_amended
    (db : DB) (i : Int) (hi : i ≤ 0)
    (updatedInfo : UpdatedInfo) (b : Bool) (p : ModelParameters) :
    (getAllConversationsByUserId db i).status = 400 ∧
    (getConversationById db i).status = 400 ∧
    (updateConversationById db i updatedInfo b).1.status = 400 ∧
    (deactivateConversationById db i).1.status = 400 ∧
    (deleteConversationById db i).1.status = 400 ∧
    (areValidModelParameters p = true →
      (updateConversationParameters db i p).1.status = 200) ∧
    (findUserById db i = none →
      (deactivateAllConversationsByUserId db i).1.status = 404) := by
  have h1 : i = 0 ∨ i < 0 := by omega
  have h2 : i = 0 ∨ i ≤ 0 := by omega
  refine ⟨?_, ?_, ?_, ?_, ?_, ?_, ?_⟩
  · unfold getAllConversationsByUserId
    rw [if_pos h1]
  · unfold getConversationById
    rw [if_pos h2]
  · unfold updateConversationById
    rw [if_pos h2]
  · unfold deactivateConversationById
    rw [if_pos h2]
  · unfold deleteConversationById
    rw [if_pos h2]
  · intro hp
    have hcond : ¬((!areValidModelParameters p) = true) := by simp [hp]
    unfold updateConversationParameters prismaConversationUpdate
    rw [if_neg hcond]
  · intro hu
    unfold deactivateAllConversationsByUserId
    rw [hu]

/-- Witness for the C3 amended theorem at id 0 on the empty database. -/
theorem id_validation_amended_witness :
    (getAllConversationsByUserId dbEmpty 0).status = 400 ∧
    (getConversationById dbEmpty 0).status = 400 ∧
    (updateConversationById dbEmpty 0 { tags := none, title := none } true).1.status = 400 ∧
    (deactivateConversationById dbEmpty 0).1.status = 400 ∧
    (deleteConversationById dbEmpty 0).1.status = 400 ∧
    (areValidModelParameters
        { userContext := "", responseContext := "", temperature := 1 } = true →
      (updateConversationParameters dbEmpty 0
        { userContext := "", responseContext := "", temperature := 1 }).1.status = 200) ∧
    (findUserById dbEmpty 0 = none →
      (deactivateAllConversationsByUserId dbEmpty 0).1.status = 404) :=
  id_validation_amended dbEmpty 0 (by decide) { tags := none, title := none } true
    { userContext := "", responseContext := "", temperature := 1 }

/-! ### C9: parameter resolution in `ModalParametersGPT` -/

def modalUserGlobalZero : PrismaUser :=
  { globalParameters := some
      { userContext := some "g", responseContext := some "r", temperature := some 0 } }

/-- C9 counterexample: with the toggle on, a user whose global temperature
is 0 and a `temperature` prop of 1, the resolved temperature is 1, not the
global temperature 0 — `globalTemperature || temperature` drops a zero
global value, so the global temperature is not used verbatim. -/
theorem resolveModalParameters_counterexample :
    modalUserGlobalZero.globalParameters.bind (fun g => g.temperature) = some 0 ∧
    (resolveModalParameters true (some modalUserGlobalZero) 1 "u" "v" 0).temperature = 1 ∧
    (1 : ℚ) ≠ 0 :=
  ⟨rfl, by decide, by norm_num⟩

theorem jsOrString_empty (s : String) : jsOrString (some s) "" = s := by
  unfold jsOrString
  dsimp only
  by_cases h : s = ""
  · rw [if_pos h, h]
  · rw [if_neg h]

theorem jsOrRat_of_ne (q fb : ℚ) (h : q ≠ 0) : jsOrRat (some q) fb = q := by
  unfold jsOrRat
  dsimp only
  rw [if_neg h]

/-- C9 amended: with the toggle on, the resolved contexts are the global
strings, a separating space, then the locally-typed text, and the resolved
temperature is the global temperature provided it is present and nonzero
(a zero or absent global temperature falls back to the `temperature`
prop); with the toggle off, the locally edited values are used as-is. -/
theorem resolveModalParameters_resolution
    (pu : PrismaUser) (g : ModalGlobalParameters) (gu gr : String) (gt : ℚ)
    (hg : pu.globalParameters = some g)
    (hgu : g.userContext = some gu) (hgr : g.responseContext = some gr)
    (hgt : g.temperature = some gt) (hgt0 : gt ≠ 0)
    (temp : ℚ) (uU uR : String) (uT : ℚ) :
    resolveModalParameters true (some pu) temp uU uR uT =
      { userContext := gu ++ " " ++ uU,
        responseContext := gr ++ " " ++ uR,
        temperature := gt } ∧
    resolveModalParameters false (some pu) temp uU uR uT =
      { userContext := uU, responseContext := uR, temperature := uT } := by
  constructor
  · unfold resolveModalParameters
    rw [if_pos rfl]
    simp only [Option.some_bind, hg, hgu, hgr, hgt]
    rw [jsOrString_empty, jsOrString_empty, jsOrRat_of_ne gt temp hgt0]
  · rfl

def modalUserGlobal : PrismaUser :=
  { globalParameters := some
      { userContext := some "G", responseContext := some "R", temperature := some (1/2) } }

/-- Witness for the C9 amended theorem at a user with nonzero global
temperature. -/
theorem resolveModalParameters_resolution_witness :
    resolveModalParameters true (some modalUserGlobal) 1 "u" "v" 0 =
      { userContext := "G" ++ " " ++ "u",
        responseContext := "R" ++ " " ++ "v",
        temperature := 1/2 } ∧
    resolveModalParameters false (some modalUserGlobal) 1 "u" "v" 0 =
      { userContext := "u", responseContext := "v", temperature := 0 } :=
  resolveModalParameters_resolution modalUserGlobal
    { userContext := some "G", responseContext := some "R", temperature := some (1/2) }
    "G" "R" (1/2) rfl rfl rfl rfl (by norm_num) 1 "u" "v" 0

end WizePrompt
